import Mathlib

/-!
Shallow embedding of `src/server.py` (an MCP server exposing six tools that
dispatch to an Azure AI Search backend).  Python dicts are association lists
with unique keys and insertion order; Python `None` is `JVal.jnull`; the
external search service is a `Backend` record of fallible operations, and
every backend invocation is recorded in an explicit event trace so that
claims about whether the backend was called can be settled.
-/

namespace AISearchMCP

/-- JSON-like values: the payloads that flow through `call_tool` (argument
values, document fields, serialized results). -/
inductive JVal where
  | jnull
  | jbool (b : Bool)
  | jnum (n : Int)
  | jstr (s : String)
  | jarr (xs : List JVal)
  | jobj (fields : List (String × JVal))

/-- Python truthiness of a value, as used by `if select:` and `x or y`. -/
def JVal.truthy : JVal → Bool
  | .jnull => false
  | .jbool b => b
  | .jnum n => n != 0
  | .jstr s => s != ""
  | .jarr xs => !xs.isEmpty
  | .jobj fs => !fs.isEmpty

/-- Python `x or y`: returns `x` when truthy, else `y`. -/
def pyOr (x y : JVal) : JVal := if x.truthy then x else y

/-- A Python dict with string keys: association list, unique keys assumed. -/
abbrev Dict := List (String × JVal)

/-- `d.get(k)` on a Python dict (None when the key is absent). -/
def Dict.get : Dict → String → Option JVal
  | [], _ => none
  | (k', v) :: rest, k => if k' = k then some v else Dict.get rest k

/-- `d.get(k)` returning `jnull` for a missing key (Python returns `None`). -/
def Dict.getArg (d : Dict) (k : String) : JVal := (d.get k).getD .jnull

/-- `d.get(k, default)` on a Python dict. -/
def Dict.getArgD (d : Dict) (k : String) (v : JVal) : JVal := (d.get k).getD v

/-- `d[k] = v` on a Python dict: overwrite in place when the key exists
(keys are unique), else append at the end (insertion order). -/
def Dict.setKey : Dict → String → JVal → Dict
  | [], k, v => [(k, v)]
  | (k', v') :: rest, k, v =>
      if k' = k then (k, v) :: rest else (k', v') :: Dict.setKey rest k v

/-- `k in d` on a Python dict. -/
def Dict.hasKey (d : Dict) (k : String) : Bool := d.any (fun kv => kv.1 = k)

/-- The tool-call argument map (`arguments: dict`). -/
abbrev Args := Dict

/-- A document returned by the search service, as a dict. -/
abbrev SDoc := Dict

/-- Process environment (server.py lines 26-29): `AZURE_SEARCH_ENDPOINT`,
`AZURE_SEARCH_API_KEY` and `AZURE_SEARCH_INDEX` read via `os.getenv`, which
yields `None` when the variable is unset. -/
structure Config where
  AZURE_SEARCH_ENDPOINT : Option String
  AZURE_SEARCH_API_KEY : Option String
  AZURE_SEARCH_INDEX : Option String

/-- An `Option String` environment value as the Python value it denotes. -/
def envVal : Option String → JVal
  | some s => .jstr s
  | none => .jnull

/-- Credential chosen by `get_credential` (server.py lines 37-41). -/
inductive Credential where
  | azureKeyCredential (key : String)
  | defaultAzureCredential

/-- `get_credential`: API-key credential when `AZURE_SEARCH_API_KEY` is a
truthy string, ambient `DefaultAzureCredential` otherwise. -/
def get_credential (cfg : Config) : Credential :=
  match cfg.AZURE_SEARCH_API_KEY with
  | some k => if k ≠ "" then .azureKeyCredential k else .defaultAzureCredential
  | none => .defaultAzureCredential

/-- The index a `SearchClient` built by `get_search_client` is bound to:
`index_name or AZURE_SEARCH_INDEX` (server.py line 47). -/
def get_search_client (cfg : Config) (index_name : JVal) : JVal :=
  pyOr index_name (envVal cfg.AZURE_SEARCH_INDEX)

/-- Keyword options assembled for `client.search` (server.py lines 199-203
and 227-233). -/
structure SearchOptions where
  top : JVal
  query_type : Option String
  semantic_configuration_name : Option JVal
  select : Option (List String)
  filter : Option JVal

/-- A field of an index schema as consumed by `get_index_schema`
(server.py lines 271-280): the attributes read off each field object. -/
structure FieldInfo where
  name : String
  ftype : String
  searchable : JVal
  filterable : JVal
  sortable : JVal
  facetable : JVal
  key : JVal

/-- An index object as consumed by `list_indexes` / `get_index_schema`:
`fields` may be `None` (Python `index.fields` can be), and
`semantic_search` is the optional list of configuration names. -/
structure IndexInfo where
  name : String
  fields : Option (List FieldInfo)
  semantic_search : Option (List String)

/-- The external search collaborator: each operation either returns a value
or raises an exception carried as an error message.  Search and document
operations take the index the client was bound to. -/
structure Backend where
  search : JVal → JVal → SearchOptions → Except String (List SDoc)
  getDocument : JVal → JVal → Option (List String) → Except String SDoc
  getDocumentCount : JVal → Except String Int
  listIndexes : Unit → Except String (List IndexInfo)
  getIndex : JVal → Except String IndexInfo

/-- One recorded invocation of a backend operation, with the arguments the
dispatcher passed to it. -/
inductive BEvent where
  | searchEv (index query : JVal) (opts : SearchOptions)
  | getDocumentEv (index key : JVal) (selected_fields : Option (List String))
  | getDocumentCountEv (index : JVal)
  | listIndexesEv
  | getIndexEv (index : JVal)

/-- `s.startswith(p)` on Python strings, via the character list (the
built-in `String.startsWith` does not reduce in the kernel). -/
def pyStartsWith (s p : String) : Bool := p.data.isPrefixOf s.data

/-- `select.split(",")` on a Python value: succeeds on a string, raises
`AttributeError` on anything else (modelled message). -/
def pySplit : JVal → Except String (List String)
  | .jstr s => .ok (s.splitOn ",")
  | _ => .error "AttributeError: object has no attribute split"

/-- The shared select-projection pattern: `select.split(",") if select else
None` (and equivalently `if select: options["select"] = select.split(",")`):
a truthy value must be a string and is split on commas; a falsy one (absent,
`None`, or the empty string) yields no projection. -/
def selectFields (select : JVal) : Except String (Option (List String)) :=
  if select.truthy then (pySplit select).map some else .ok none

/-- Per-document post-processing of a `search` hit (server.py lines
209-210): drop keys starting with `@`, then set `_score` from
`result.get("@search.score")`. -/
def processSearchDoc (d : SDoc) : SDoc :=
  Dict.setKey (d.filter (fun kv => !pyStartsWith kv.1 "@")) "_score" (d.getArg "@search.score")

/-- Per-document post-processing of a `vector_search` hit (server.py lines
239-241): drop `@` keys, set `_score`, then set `_reranker_score`. -/
def processVectorDoc (d : SDoc) : SDoc :=
  Dict.setKey
    (Dict.setKey (d.filter (fun kv => !pyStartsWith kv.1 "@")) "_score" (d.getArg "@search.score"))
    "_reranker_score" (d.getArg "@search.reranker_score")

/-- The `search` branch of `call_tool` (server.py lines 190-216): read
arguments, build `search_options`, call the backend, post-process each hit
and serialize a `results`/`count` envelope. -/
def searchHandler (cfg : Config) (b : Backend) (args : Args) :
    Except String JVal × List BEvent :=
  let query := args.getArg "query"
  let index_name := args.getArg "index_name"
  let top := args.getArgD "top" (.jnum 10)
  let select := args.getArg "select"
  let filter_expr := args.getArg "filter"
  let index := get_search_client cfg index_name
  match selectFields select with
  | .error e => (.error e, [])
  | .ok selOpt =>
    let opts : SearchOptions :=
      { top := top, query_type := none, semantic_configuration_name := none,
        select := selOpt,
        filter := if filter_expr.truthy then some filter_expr else none }
    match b.search index query opts with
    | .error e => (.error e, [.searchEv index query opts])
    | .ok results =>
      let documents := results.map (fun r => JVal.jobj (processSearchDoc r))
      (.ok (.jobj [("results", .jarr documents), ("count", .jnum documents.length)]),
       [.searchEv index query opts])

/-- The `vector_search` branch of `call_tool` (server.py lines 218-247):
semantic query with `semantic_config or "default"`, post-processing adds
`_score` and `_reranker_score`. -/
def vectorSearchHandler (cfg : Config) (b : Backend) (args : Args) :
    Except String JVal × List BEvent :=
  let query := args.getArg "query"
  let index_name := args.getArg "index_name"
  let top := args.getArgD "top" (.jnum 10)
  let select := args.getArg "select"
  let semantic_config := args.getArg "semantic_configuration"
  let index := get_search_client cfg index_name
  match selectFields select with
  | .error e => (.error e, [])
  | .ok selOpt =>
    let opts : SearchOptions :=
      { top := top, query_type := some "semantic",
        semantic_configuration_name := some (pyOr semantic_config (.jstr "default")),
        select := selOpt, filter := none }
    match b.search index query opts with
    | .error e => (.error e, [.searchEv index query opts])
    | .ok results =>
      let documents := results.map (fun r => JVal.jobj (processVectorDoc r))
      (.ok (.jobj [("results", .jarr documents), ("count", .jnum documents.length)]),
       [.searchEv index query opts])

/-- The `list_indexes` branch of `call_tool` (server.py lines 249-263):
for each index, its name and `len(index.fields) if index.fields else 0`. -/
def listIndexesHandler (b : Backend) : Except String JVal × List BEvent :=
  match b.listIndexes () with
  | .error e => (.error e, [.listIndexesEv])
  | .ok indexes =>
    let index_list := indexes.map (fun i =>
      JVal.jobj [("name", .jstr i.name),
                 ("fields_count", .jnum ((i.fields.getD []).length))])
    (.ok (.jobj [("indexes", .jarr index_list)]), [.listIndexesEv])

/-- The `get_index_schema` branch of `call_tool` (server.py lines 265-289):
`client.get_index(arguments.get("index_name"))` — no default-index fallback
and no presence check — then serialize the field records; iterating
`index.fields` raises when it is `None`. -/
def getIndexSchemaHandler (b : Backend) (args : Args) :
    Except String JVal × List BEvent :=
  let index_name := args.getArg "index_name"
  match b.getIndex index_name with
  | .error e => (.error e, [.getIndexEv index_name])
  | .ok index =>
    match index.fields with
    | none => (.error "TypeError: NoneType object is not iterable", [.getIndexEv index_name])
    | some fs =>
      let fields := fs.map (fun f =>
        JVal.jobj [("name", .jstr f.name), ("type", .jstr f.ftype),
                   ("searchable", f.searchable), ("filterable", f.filterable),
                   ("sortable", f.sortable), ("facetable", f.facetable),
                   ("key", f.key)])
      (.ok (.jobj [("index_name", .jstr index.name),
                   ("fields", .jarr fields),
                   ("semantic_configurations",
                     .jarr (((index.semantic_search).getD []).map (fun n => .jstr n)))]),
       [.getIndexEv index_name])

/-- The `get_document` branch of `call_tool` (server.py lines 291-304):
`selected_fields = select.split(",") if select else None`, then fetch the
document by key and serialize it as-is. -/
def getDocumentHandler (cfg : Config) (b : Backend) (args : Args) :
    Except String JVal × List BEvent :=
  let key := args.getArg "key"
  let index_name := args.getArg "index_name"
  let select := args.getArg "select"
  let index := get_search_client cfg index_name
  match selectFields select with
  | .error e => (.error e, [])
  | .ok selected_fields =>
    match b.getDocument index key selected_fields with
    | .error e => (.error e, [.getDocumentEv index key selected_fields])
    | .ok document =>
      (.ok (.jobj document), [.getDocumentEv index key selected_fields])

/-- The `get_document_count` branch of `call_tool` (server.py lines
306-314): count on the client's index, output names
`index_name or AZURE_SEARCH_INDEX`. -/
def getDocumentCountHandler (cfg : Config) (b : Backend) (args : Args) :
    Except String JVal × List BEvent :=
  let index_name := args.getArg "index_name"
  let index := get_search_client cfg index_name
  match b.getDocumentCount index with
  | .error e => (.error e, [.getDocumentCountEv index])
  | .ok count =>
    (.ok (.jobj [("index", pyOr index_name (envVal cfg.AZURE_SEARCH_INDEX)),
                 ("document_count", .jnum count)]),
     [.getDocumentCountEv index])

/-- The body of `call_tool`'s `try` block (server.py lines 189-317): the
`if name == ... elif ...` chain, `raise ValueError(f"Unknown tool: ...")`
in the final `else`. -/
def runTool (cfg : Config) (b : Backend) (name : String) (args : Args) :
    Except String JVal × List BEvent :=
  if name = "search" then searchHandler cfg b args
  else if name = "vector_search" then vectorSearchHandler cfg b args
  else if name = "list_indexes" then listIndexesHandler b
  else if name = "get_index_schema" then getIndexSchemaHandler b args
  else if name = "get_document" then getDocumentHandler cfg b args
  else if name = "get_document_count" then getDocumentCountHandler cfg b args
  else (.error ("Unknown tool: " ++ name), [])

/-- The single `TextContent` block `call_tool` returns, decoded: a success
payload (the JSON serialized on the success paths) or the error envelope
`\x7b"error": str(e)\x7d` produced by the `except` clause. -/
inductive ToolResult where
  | content (payload : JVal)
  | error (message : String)

/-- `call_tool` (server.py lines 185-324): run the dispatch chain inside
`try`, catch every exception and turn it into the error envelope.  The
second component is the trace of backend invocations performed. -/
def call_tool (cfg : Config) (b : Backend) (name : String) (args : Args) :
    ToolResult × List BEvent :=
  match runTool cfg b name args with
  | (.ok payload, tr) => (.content payload, tr)
  | (.error e, tr) => (.error e, tr)

/-- A tool descriptor as constructed by `list_tools`: name, description and
JSON input schema. -/
structure Tool where
  name : String
  description : String
  inputSchema : JVal

/-- Shorthand for a schema property record of a given type/description. -/
def prop (ty desc : String) : JVal :=
  .jobj [("type", .jstr ty), ("description", .jstr desc)]

/-- `list_tools` (server.py lines 58-183): the six tool descriptors in
declaration order.  A pure constant — the Python function rebuilds and
returns the same literal list on every call, with no side effects. -/
def list_tools : List Tool :=
  [ { name := "search",
      description := "Search for documents in Azure AI Search index using full-text search",
      inputSchema := .jobj
        [("type", .jstr "object"),
         ("properties", .jobj
           [("query", prop "string" "The search query text"),
            ("index_name", prop "string" "Name of the search index (uses default if not specified)"),
            ("top", .jobj [("type", .jstr "integer"),
                           ("description", .jstr "Number of results to return (default: 10)"),
                           ("default", .jnum 10)]),
            ("select", prop "string" "Comma-separated list of fields to return"),
            ("filter", prop "string" "OData filter expression")]),
         ("required", .jarr [.jstr "query"])] },
    { name := "vector_search",
      description := "Perform vector/semantic search on Azure AI Search index",
      inputSchema := .jobj
        [("type", .jstr "object"),
         ("properties", .jobj
           [("query", prop "string" "The search query text for semantic search"),
            ("index_name", prop "string" "Name of the search index (uses default if not specified)"),
            ("top", .jobj [("type", .jstr "integer"),
                           ("description", .jstr "Number of results to return (default: 10)"),
                           ("default", .jnum 10)]),
            ("select", prop "string" "Comma-separated list of fields to return"),
            ("semantic_configuration", prop "string" "Name of the semantic configuration to use")]),
         ("required", .jarr [.jstr "query"])] },
    { name := "list_indexes",
      description := "List all available search indexes in the Azure AI Search service",
      inputSchema := .jobj
        [("type", .jstr "object"), ("properties", .jobj []), ("required", .jarr [])] },
    { name := "get_index_schema",
      description := "Get the schema/fields of a specific search index",
      inputSchema := .jobj
        [("type", .jstr "object"),
         ("properties", .jobj
           [("index_name", prop "string" "Name of the search index")]),
         ("required", .jarr [.jstr "index_name"])] },
    { name := "get_document",
      description := "Retrieve a specific document by its key",
      inputSchema := .jobj
        [("type", .jstr "object"),
         ("properties", .jobj
           [("key", prop "string" "The document key/ID"),
            ("index_name", prop "string" "Name of the search index (uses default if not specified)"),
            ("select", prop "string" "Comma-separated list of fields to return")]),
         ("required", .jarr [.jstr "key"])] },
    { name := "get_document_count",
      description := "Get the total number of documents in a search index",
      inputSchema := .jobj
        [("type", .jstr "object"),
         ("properties", .jobj
           [("index_name", prop "string" "Name of the search index (uses default if not specified)")]),
         ("required", .jarr [])] } ]

/-- Keys of a JSON object (empty for non-objects). -/
def objKeys : JVal → List String
  | .jobj fs => fs.map (fun kv => kv.1)
  | _ => []

/-- The parameters a tool declares in its input schema's `properties`;
empty for a name not in the registry. -/
def declaredParams (name : String) : List String :=
  match list_tools.find? (fun t => t.name = name) with
  | some t => objKeys (Dict.getArg (match t.inputSchema with | .jobj fs => fs | _ => []) "properties")
  | none => []

/-! Concrete fixtures used to evaluate the theorems on closed inputs. -/

/-- A concrete environment with all three variables configured. -/
def cfgEx : Config :=
  { AZURE_SEARCH_ENDPOINT := some "https://example.search.windows.net",
    AZURE_SEARCH_API_KEY := some "key123",
    AZURE_SEARCH_INDEX := some "my-index" }

/-- A backend on which every operation raises the same exception. -/
def allFail (e : String) : Backend :=
  { search := fun _ _ _ => .error e,
    getDocument := fun _ _ _ => .error e,
    getDocumentCount := fun _ => .error e,
    listIndexes := fun _ => .error e,
    getIndex := fun _ => .error e }

/-- A stub backend whose `search` returns a fixed list of documents; every
other operation raises. -/
def bSearch (docs : List SDoc) : Backend :=
  { allFail "unused operation" with search := fun _ _ _ => .ok docs }

/-- A stub backend whose `getDocumentCount` reports a fixed count; every
other operation raises. -/
def bCount (n : Int) : Backend :=
  { allFail "unused operation" with getDocumentCount := fun _ => .ok n }

/-- Whether a `ToolResult` is a `Content` result. -/
def ToolResult.isContent : ToolResult → Bool
  | .content _ => true
  | .error _ => false

/-- Whether a `ToolResult` is an `Error` result. -/
def ToolResult.isError : ToolResult → Bool
  | .content _ => false
  | .error _ => true

/-- A well-formed `ToolResult` is a `Content` or an `Error`, never both and
never neither. -/
def ToolResult.wellFormed (r : ToolResult) : Prop :=
  (r.isContent = true ∧ r.isError = false) ∨ (r.isError = true ∧ r.isContent = false)

/-! Helper lemmas about dict operations. -/

theorem hasKey_setKey_self (d : Dict) (k : String) (v : JVal) :
    Dict.hasKey (Dict.setKey d k v) k = true := by
  induction d with
  | nil => simp [Dict.setKey, Dict.hasKey]
  | cons kv rest ih =>
    obtain ⟨k0, v0⟩ := kv
    by_cases h : k0 = k
    · subst h
      simp [Dict.setKey, Dict.hasKey]
    · simp only [Dict.setKey, if_neg h, Dict.hasKey, List.any_cons] at ih ⊢
      simp [ih]

theorem hasKey_setKey_ne (d : Dict) (k k' : String) (v : JVal) (h : k ≠ k') :
    Dict.hasKey (Dict.setKey d k' v) k = Dict.hasKey d k := by
  induction d with
  | nil =>
    have h' : ¬ (k' = k) := fun e => h e.symm
    simp [Dict.setKey, Dict.hasKey, h']
  | cons kv rest ih =>
    obtain ⟨k0, v0⟩ := kv
    by_cases h0 : k0 = k'
    · subst h0
      have h' : ¬ (k0 = k) := fun e => h e.symm
      simp [Dict.setKey, Dict.hasKey, h']
    · simp only [Dict.setKey, if_neg h0, Dict.hasKey, List.any_cons] at ih ⊢
      rw [ih]

theorem hasKey_filter_false (d : Dict) (k : String) (p : String × JVal → Bool)
    (hp : ∀ v, p (k, v) = false) :
    Dict.hasKey (d.filter p) k = false := by
  induction d with
  | nil => simp [Dict.hasKey]
  | cons kv rest ih =>
    obtain ⟨k0, v0⟩ := kv
    by_cases hk : k0 = k
    · subst hk
      simp only [List.filter_cons, hp v0]
      simpa using ih
    · by_cases hkeep : p (k0, v0) = true
      · simp only [List.filter_cons, if_pos hkeep, Dict.hasKey, List.any_cons] at ih ⊢
        simp [hk, ih]
      · simp only [List.filter_cons, if_neg hkeep]
        exact ih

theorem hasKey_filter_of_not (d : Dict) (k : String) (p : String × JVal → Bool) :
    Dict.hasKey d k = false → Dict.hasKey (d.filter p) k = false := by
  induction d with
  | nil => intro _; simp [Dict.hasKey]
  | cons kv rest ih =>
    obtain ⟨k0, v0⟩ := kv
    intro h
    simp only [Dict.hasKey, List.any_cons, Bool.or_eq_false_iff] at h
    by_cases hkeep : p (k0, v0) = true
    · simp only [List.filter_cons, if_pos hkeep, Dict.hasKey, List.any_cons]
      have hrest := ih h.2
      simp only [Dict.hasKey] at hrest
      simp [h.1, hrest]
    · simp only [List.filter_cons, if_neg hkeep]
      exact ih h.2

/-- C7: `list_tools` is a pure constant, hence idempotent, deterministic
and side-effect free; it returns exactly the six tool descriptors search,
vector_search, list_indexes, get_index_schema, get_document,
get_document_count in declaration order on every call. -/
theorem C7_list_tools_deterministic :
    list_tools.map Tool.name =
      ["search", "vector_search", "list_indexes", "get_index_schema",
       "get_document", "get_document_count"]
    ∧ list_tools.length = 6 := by
  constructor <;> rfl

/-- C3: for every tool name outside the six registered tools and every
argument map, `call_tool` returns an Error result whose message is exactly
"Unknown tool: " followed by the name, performs no backend call and raises
nothing to its caller (it returns, totally, through the except clause). -/
theorem C3_unknown_tool (cfg : Config) (b : Backend) (name : String) (args : Args)
    (h : name ∉ list_tools.map Tool.name) :
    call_tool cfg b name args = (.error ("Unknown tool: " ++ name), []) := by
  simp only [list_tools, List.map_cons, List.map_nil, List.mem_cons,
    List.not_mem_nil, or_false, not_or] at h
  obtain ⟨h1, h2, h3, h4, h5, h6⟩ := h
  simp [call_tool, runTool, h1, h2, h3, h4, h5, h6]

/-- Closed witness for C3 at the concrete unknown name "frobnicate". -/
theorem C3_unknown_tool_witness :
    call_tool cfgEx (allFail "boom") "frobnicate" [] =
      (.error ("Unknown tool: " ++ "frobnicate"), []) :=
  C3_unknown_tool cfgEx (allFail "boom") "frobnicate" [] (by decide)

/-- C10: every backend key starting with "@" is removed by the
per-document post-processing of both `search` and `vector_search`, so no
"@"-prefixed key ever appears in a result document record. -/
theorem C10_at_keys_removed (k : String) (d : SDoc) (hk : pyStartsWith k "@" = true) :
    Dict.hasKey (processSearchDoc d) k = false
    ∧ Dict.hasKey (processVectorDoc d) k = false := by
  have hscore : k ≠ "_score" := by
    intro e; subst e; exact absurd hk (by decide)
  have hrr : k ≠ "_reranker_score" := by
    intro e; subst e; exact absurd hk (by decide)
  have hfilter : Dict.hasKey (d.filter (fun kv => !pyStartsWith kv.1 "@")) k = false := by
    apply hasKey_filter_false
    intro v
    simp [hk]
  constructor
  · rw [processSearchDoc, hasKey_setKey_ne _ _ _ _ hscore]
    exact hfilter
  · rw [processVectorDoc, hasKey_setKey_ne _ _ _ _ hrr,
      hasKey_setKey_ne _ _ _ _ hscore]
    exact hfilter

/-! Reduction of the dispatch chain at each literal tool name. -/

theorem runTool_search (cfg : Config) (b : Backend) (args : Args) :
    runTool cfg b "search" args = searchHandler cfg b args := rfl

theorem runTool_vector_search (cfg : Config) (b : Backend) (args : Args) :
    runTool cfg b "vector_search" args = vectorSearchHandler cfg b args := rfl

theorem runTool_list_indexes (cfg : Config) (b : Backend) (args : Args) :
    runTool cfg b "list_indexes" args = listIndexesHandler b := rfl

theorem runTool_get_index_schema (cfg : Config) (b : Backend) (args : Args) :
    runTool cfg b "get_index_schema" args = getIndexSchemaHandler b args := rfl

theorem runTool_get_document (cfg : Config) (b : Backend) (args : Args) :
    runTool cfg b "get_document" args = getDocumentHandler cfg b args := rfl

theorem runTool_get_document_count (cfg : Config) (b : Backend) (args : Args) :
    runTool cfg b "get_document_count" args = getDocumentCountHandler cfg b args := rfl

/-- C4: with `select` and `filter` omitted, `search` over a backend
returning `docs` yields a Content result whose `count` equals the number of
documents and in which every document record carries a `_score` field. -/
theorem C4_search_count_and_score (cfg : Config) (args : Args) (docs : List SDoc)
    (hsel : args.get "select" = none) (hfil : args.get "filter" = none) :
    (call_tool cfg (bSearch docs) "search" args).1 =
      .content (.jobj [("results", .jarr (docs.map (fun d => .jobj (processSearchDoc d)))),
                       ("count", .jnum docs.length)])
    ∧ ∀ d ∈ docs, Dict.hasKey (processSearchDoc d) "_score" = true := by
  constructor
  · simp [call_tool, runTool, searchHandler, selectFields, Dict.getArg, Dict.getArgD,
      hsel, hfil, JVal.truthy, bSearch, allFail]
  · intro d _
    rw [processSearchDoc]
    exact hasKey_setKey_self _ _ _

/-- Closed witness for C4: two stubbed documents, count 2, both scored. -/
theorem C4_search_count_and_score_witness :
    (call_tool cfgEx
        (bSearch [[("title", .jstr "t1"), ("@search.score", .jnum 2)], [("id", .jstr "2")]])
        "search" [("query", .jstr "azure")]).1 =
      .content (.jobj
        [("results", .jarr
            [.jobj [("title", .jstr "t1"), ("_score", .jnum 2)],
             .jobj [("id", .jstr "2"), ("_score", .jnull)]]),
         ("count", .jnum 2)])
    ∧ ∀ d ∈ [[("title", JVal.jstr "t1"), ("@search.score", JVal.jnum 2)],
              [("id", JVal.jstr "2")]],
        Dict.hasKey (processSearchDoc d) "_score" = true :=
  C4_search_count_and_score cfgEx [("query", .jstr "azure")]
    [[("title", .jstr "t1"), ("@search.score", .jnum 2)], [("id", .jstr "2")]] rfl rfl

/-- C6: `get_document_count` with `index_name` omitted uses the configured
default index for the backend call and names it in the output payload
together with the reported count. -/
theorem C6_count_default_index (cfg : Config) (di : String) (args : Args) (n : Int)
    (hdi : cfg.AZURE_SEARCH_INDEX = some di) (hidx : args.get "index_name" = none) :
    call_tool cfg (bCount n) "get_document_count" args =
      (.content (.jobj [("index", .jstr di), ("document_count", .jnum n)]),
       [BEvent.getDocumentCountEv (.jstr di)]) := by
  simp [call_tool, runTool, getDocumentCountHandler, Dict.getArg, hidx,
    get_search_client, pyOr, JVal.truthy, envVal, hdi, bCount, allFail]

/-- Closed witness for C6: the spec's concrete scenario — empty arguments,
default index configured, backend reporting 42 documents. -/
theorem C6_count_default_index_witness :
    call_tool cfgEx (bCount 42) "get_document_count" [] =
      (.content (.jobj [("index", .jstr "my-index"), ("document_count", .jnum 42)]),
       [BEvent.getDocumentCountEv (.jstr "my-index")]) :=
  C6_count_default_index cfgEx "my-index" [] 42 rfl rfl

/-- Counterexample to C2: calling `get_index_schema` with an empty argument
map (so the required `index_name` is missing) still invokes the backend
(`get_index` is called with `None`), and the Error produced is the backend
exception's message, not a validation error naming the parameter —
`call_tool` performs no pre-dispatch validation. -/
theorem C2_counterexample :
    (call_tool cfgEx (allFail "backend reached") "get_index_schema" []).2 =
      [BEvent.getIndexEv .jnull]
    ∧ (call_tool cfgEx (allFail "backend reached") "get_index_schema" []).1 =
      .error "backend reached" := by
  constructor <;> rfl

/-- C2 amended: there is no argument validation; a call missing a required
parameter is dispatched anyway, with `None` standing in for the missing
parameter: `get_index_schema` without `index_name` always performs exactly
one backend `get_index(None)` call, and `get_document` without `key` (and
without `select`) always performs exactly one backend
`get_document(key=None)` call. -/
theorem C2_amended_no_validation (cfg : Config) (b : Backend) (args args2 : Args)
    (h1 : args.get "index_name" = none)
    (h2 : args2.get "key" = none) (h3 : args2.get "select" = none) :
    (call_tool cfg b "get_index_schema" args).2 = [BEvent.getIndexEv .jnull]
    ∧ (call_tool cfg b "get_document" args2).2 =
        [BEvent.getDocumentEv (get_search_client cfg (args2.getArg "index_name")) .jnull none] := by
  constructor
  · have hidx : Dict.getArg args "index_name" = .jnull := by simp [Dict.getArg, h1]
    unfold call_tool
    rw [runTool_get_index_schema]
    simp only [getIndexSchemaHandler, hidx]
    cases hres : b.getIndex JVal.jnull with
    | error e => rfl
    | ok info =>
      obtain ⟨nm, flds, sem⟩ := info
      cases flds with
      | none => rfl
      | some fs => rfl
  · have hkey : Dict.getArg args2 "key" = .jnull := by simp [Dict.getArg, h2]
    have hsel : Dict.getArg args2 "select" = .jnull := by simp [Dict.getArg, h3]
    unfold call_tool
    rw [runTool_get_document]
    simp only [getDocumentHandler, hkey, hsel]
    rw [show selectFields JVal.jnull = .ok none from rfl]
    cases hres : b.getDocument (get_search_client cfg (Dict.getArg args2 "index_name"))
        JVal.jnull none with
    | error e => simp [hres]
    | ok doc => simp [hres]

/-- Closed witness for the amended C2 at empty argument maps. -/
theorem C2_amended_no_validation_witness :
    (call_tool cfgEx (allFail "err") "get_index_schema" []).2 = [BEvent.getIndexEv .jnull]
    ∧ (call_tool cfgEx (allFail "err") "get_document" []).2 =
        [BEvent.getDocumentEv (get_search_client cfgEx (Dict.getArg [] "index_name")) .jnull none] :=
  C2_amended_no_validation cfgEx (allFail "err") [] [] rfl rfl rfl

/-- Counterexample to C5: the code only strips keys starting with "@", so a
backend document that itself contains a field literally named
`_reranker_score` passes it through into a `search` result record — the
"search results never carry _reranker_score" half of the claim fails. -/
theorem C5_counterexample :
    (call_tool cfgEx
        (bSearch [[("id", .jstr "1"), ("_reranker_score", .jstr "sneaky"),
                   ("@search.score", .jnum 1)]])
        "search" [("query", .jstr "q")]).1 =
      .content (.jobj
        [("results", .jarr
            [.jobj [("id", .jstr "1"), ("_reranker_score", .jstr "sneaky"),
                    ("_score", .jnum 1)]]),
         ("count", .jnum 1)])
    ∧ Dict.hasKey
        (processSearchDoc [("id", .jstr "1"), ("_reranker_score", .jstr "sneaky"),
                           ("@search.score", .jnum 1)])
        "_reranker_score" = true := by
  constructor <;> rfl

/-- C5 amended: every `vector_search` document record carries a
`_reranker_score` field (and with `select` omitted the whole result is the
processed document list); a `search` document record carries
`_reranker_score` only when the backend document itself contained such a
key — the `search` post-processing never adds one. -/
theorem C5_amended_reranker (cfg : Config) (args : Args) (docs : List SDoc) :
    (∀ d : SDoc, Dict.hasKey (processVectorDoc d) "_reranker_score" = true)
    ∧ (∀ d : SDoc, Dict.hasKey d "_reranker_score" = false →
        Dict.hasKey (processSearchDoc d) "_reranker_score" = false)
    ∧ (args.get "select" = none →
        (call_tool cfg (bSearch docs) "vector_search" args).1 =
          .content (.jobj [("results", .jarr (docs.map (fun d => .jobj (processVectorDoc d)))),
                           ("count", .jnum docs.length)])) := by
  refine ⟨?_, ?_, ?_⟩
  · intro d
    rw [processVectorDoc]
    exact hasKey_setKey_self _ _ _
  · intro d h
    rw [processSearchDoc, hasKey_setKey_ne _ _ _ _ (by decide)]
    exact hasKey_filter_of_not _ _ _ h
  · intro hsel
    simp [call_tool, runTool, vectorSearchHandler, selectFields, Dict.getArg, Dict.getArgD,
      hsel, JVal.truthy, bSearch, allFail]

/-- Closed witness for the amended C5: a vector record gains the reranker
score, a clean search record does not, and a concrete vector_search call
returns the processed documents. -/
theorem C5_amended_reranker_witness :
    Dict.hasKey (processVectorDoc [("id", .jstr "1")]) "_reranker_score" = true
    ∧ Dict.hasKey (processSearchDoc [("id", .jstr "1")]) "_reranker_score" = false
    ∧ (call_tool cfgEx (bSearch [[("id", .jstr "1")]]) "vector_search"
        [("query", .jstr "q")]).1 =
      .content (.jobj [("results", .jarr [.jobj (processVectorDoc [("id", .jstr "1")])]),
                       ("count", .jnum 1)]) :=
  ⟨(C5_amended_reranker cfgEx [("query", .jstr "q")] [[("id", .jstr "1")]]).1 _,
   (C5_amended_reranker cfgEx [("query", .jstr "q")] [[("id", .jstr "1")]]).2.1 _ rfl,
   (C5_amended_reranker cfgEx [("query", .jstr "q")] [[("id", .jstr "1")]]).2.2 rfl⟩

/-- Closed witness for C10 at the concrete key "@odata.etag". -/
theorem C10_at_keys_removed_witness :
    Dict.hasKey (processSearchDoc [("@odata.etag", .jstr "x"), ("id", .jstr "1")]) "@odata.etag" = false
    ∧ Dict.hasKey (processVectorDoc [("@odata.etag", .jstr "x"), ("id", .jstr "1")]) "@odata.etag" = false :=
  C10_at_keys_removed "@odata.etag" [("@odata.etag", .jstr "x"), ("id", .jstr "1")] (by decide)

/-! Behaviour of each handler over a backend on which every operation
raises exception `e`: whenever the backend was actually reached (the trace
is nonempty), the handler's outcome is exactly that exception. -/

theorem searchHandler_allFail (cfg : Config) (args : Args) (e : String)
    (h : (searchHandler cfg (allFail e) args).2 ≠ []) :
    (searchHandler cfg (allFail e) args).1 = .error e := by
  cases hsel : selectFields (Dict.getArg args "select") with
  | error m =>
    exfalso
    apply h
    simp [searchHandler, hsel]
  | ok so => simp [searchHandler, hsel, allFail]

theorem vectorSearchHandler_allFail (cfg : Config) (args : Args) (e : String)
    (h : (vectorSearchHandler cfg (allFail e) args).2 ≠ []) :
    (vectorSearchHandler cfg (allFail e) args).1 = .error e := by
  cases hsel : selectFields (Dict.getArg args "select") with
  | error m =>
    exfalso
    apply h
    simp [vectorSearchHandler, hsel]
  | ok so => simp [vectorSearchHandler, hsel, allFail]

theorem getDocumentHandler_allFail (cfg : Config) (args : Args) (e : String)
    (h : (getDocumentHandler cfg (allFail e) args).2 ≠ []) :
    (getDocumentHandler cfg (allFail e) args).1 = .error e := by
  cases hsel : selectFields (Dict.getArg args "select") with
  | error m =>
    exfalso
    apply h
    simp [getDocumentHandler, hsel]
  | ok so => simp [getDocumentHandler, hsel, allFail]

/-- The trace of `call_tool` is the trace of its dispatch chain. -/
theorem call_tool_trace (cfg : Config) (b : Backend) (name : String) (args : Args) :
    (call_tool cfg b name args).2 = (runTool cfg b name args).2 := by
  unfold call_tool
  rcases runTool cfg b name args with ⟨res, tr⟩
  cases res <;> rfl

/-- An exception outcome of the dispatch chain surfaces as the Error
envelope of `call_tool`. -/
theorem call_tool_fst_error (cfg : Config) (b : Backend) (name : String) (args : Args)
    (e : String) (h : (runTool cfg b name args).1 = .error e) :
    (call_tool cfg b name args).1 = .error e := by
  unfold call_tool
  rcases hr : runTool cfg b name args with ⟨res, tr⟩
  rw [hr] at h
  cases res with
  | ok p => exact absurd h (by simp)
  | error m =>
    simp only at h
    cases h
    rfl

/-- C1: every invocation of `call_tool` yields exactly one well-formed
ToolResult (Content or Error, never both, never neither), and whenever the
backend call raised an exception (witnessed by a nonempty backend trace
against an always-raising backend), `call_tool` catches it and returns an
Error result carrying exactly the exception's message — never an unhandled
fault. -/
theorem C1_backend_failure_contained (cfg : Config) (name : String) (args : Args) (e : String) :
    (∀ b : Backend, ((call_tool cfg b name args).1).wellFormed)
    ∧ ((call_tool cfg (allFail e) name args).2 ≠ [] →
        (call_tool cfg (allFail e) name args).1 = .error e) := by
  constructor
  · intro b
    unfold call_tool
    rcases runTool cfg b name args with ⟨res, tr⟩
    cases res with
    | ok p => simp [ToolResult.wellFormed, ToolResult.isContent, ToolResult.isError]
    | error m => simp [ToolResult.wellFormed, ToolResult.isContent, ToolResult.isError]
  · intro h
    rw [call_tool_trace] at h
    by_cases h1 : name = "search"
    · subst h1
      rw [runTool_search] at h
      exact call_tool_fst_error _ _ _ _ _
        (by rw [runTool_search]; exact searchHandler_allFail cfg args e h)
    by_cases h2 : name = "vector_search"
    · subst h2
      rw [runTool_vector_search] at h
      exact call_tool_fst_error _ _ _ _ _
        (by rw [runTool_vector_search]; exact vectorSearchHandler_allFail cfg args e h)
    by_cases h3 : name = "list_indexes"
    · subst h3
      exact call_tool_fst_error _ _ _ _ _ (by rw [runTool_list_indexes]; rfl)
    by_cases h4 : name = "get_index_schema"
    · subst h4
      exact call_tool_fst_error _ _ _ _ _ (by rw [runTool_get_index_schema]; rfl)
    by_cases h5 : name = "get_document"
    · subst h5
      rw [runTool_get_document] at h
      exact call_tool_fst_error _ _ _ _ _
        (by rw [runTool_get_document]; exact getDocumentHandler_allFail cfg args e h)
    by_cases h6 : name = "get_document_count"
    · subst h6
      exact call_tool_fst_error _ _ _ _ _ (by rw [runTool_get_document_count]; rfl)
    exfalso
    apply h
    simp [runTool, h1, h2, h3, h4, h5, h6]

/-- Closed witness for C1: a raising backend under `get_document_count`
surfaces its message as the Error result. -/
theorem C1_backend_failure_contained_witness :
    (call_tool cfgEx (allFail "boom") "get_document_count" []).1 = .error "boom" :=
  (C1_backend_failure_contained cfgEx "get_document_count" [] "boom").2
    (by simp [call_tool, runTool, getDocumentCountHandler, allFail])

/-! Per-handler congruence: each handler reads exactly its tool's declared
parameters from the argument map. -/

theorem searchHandler_congr (cfg : Config) (b : Backend) (args1 args2 : Args)
    (hq : args1.get "query" = args2.get "query")
    (hi : args1.get "index_name" = args2.get "index_name")
    (ht : args1.get "top" = args2.get "top")
    (hs : args1.get "select" = args2.get "select")
    (hf : args1.get "filter" = args2.get "filter") :
    searchHandler cfg b args1 = searchHandler cfg b args2 := by
  unfold searchHandler
  simp only [Dict.getArg, Dict.getArgD, hq, hi, ht, hs, hf]

theorem vectorSearchHandler_congr (cfg : Config) (b : Backend) (args1 args2 : Args)
    (hq : args1.get "query" = args2.get "query")
    (hi : args1.get "index_name" = args2.get "index_name")
    (ht : args1.get "top" = args2.get "top")
    (hs : args1.get "select" = args2.get "select")
    (hc : args1.get "semantic_configuration" = args2.get "semantic_configuration") :
    vectorSearchHandler cfg b args1 = vectorSearchHandler cfg b args2 := by
  unfold vectorSearchHandler
  simp only [Dict.getArg, Dict.getArgD, hq, hi, ht, hs, hc]

theorem getIndexSchemaHandler_congr (b : Backend) (args1 args2 : Args)
    (hi : args1.get "index_name" = args2.get "index_name") :
    getIndexSchemaHandler b args1 = getIndexSchemaHandler b args2 := by
  unfold getIndexSchemaHandler
  simp only [Dict.getArg, hi]

theorem getDocumentHandler_congr (cfg : Config) (b : Backend) (args1 args2 : Args)
    (hk : args1.get "key" = args2.get "key")
    (hi : args1.get "index_name" = args2.get "index_name")
    (hs : args1.get "select" = args2.get "select") :
    getDocumentHandler cfg b args1 = getDocumentHandler cfg b args2 := by
  unfold getDocumentHandler
  simp only [Dict.getArg, hk, hi, hs]

theorem getDocumentCountHandler_congr (cfg : Config) (b : Backend) (args1 args2 : Args)
    (hi : args1.get "index_name" = args2.get "index_name") :
    getDocumentCountHandler cfg b args1 = getDocumentCountHandler cfg b args2 := by
  unfold getDocumentCountHandler
  simp only [Dict.getArg, hi]

/-- C8: undeclared extra arguments never influence the result — two
argument maps that agree on the tool's declared parameters produce the same
ToolResult and the same backend trace, for every tool name and backend. -/
theorem C8_unknown_params_ignored (cfg : Config) (b : Backend) (name : String)
    (args1 args2 : Args)
    (h : ∀ k ∈ declaredParams name, args1.get k = args2.get k) :
    call_tool cfg b name args1 = call_tool cfg b name args2 := by
  unfold call_tool
  suffices hrt : runTool cfg b name args1 = runTool cfg b name args2 by rw [hrt]
  by_cases h1 : name = "search"
  · subst h1
    rw [runTool_search, runTool_search]
    have hd : declaredParams "search" = ["query", "index_name", "top", "select", "filter"] := rfl
    rw [hd] at h
    exact searchHandler_congr cfg b args1 args2
      (h "query" (by simp)) (h "index_name" (by simp)) (h "top" (by simp))
      (h "select" (by simp)) (h "filter" (by simp))
  by_cases h2 : name = "vector_search"
  · subst h2
    rw [runTool_vector_search, runTool_vector_search]
    have hd : declaredParams "vector_search" =
        ["query", "index_name", "top", "select", "semantic_configuration"] := rfl
    rw [hd] at h
    exact vectorSearchHandler_congr cfg b args1 args2
      (h "query" (by simp)) (h "index_name" (by simp)) (h "top" (by simp))
      (h "select" (by simp)) (h "semantic_configuration" (by simp))
  by_cases h3 : name = "list_indexes"
  · subst h3
    rw [runTool_list_indexes, runTool_list_indexes]
  by_cases h4 : name = "get_index_schema"
  · subst h4
    rw [runTool_get_index_schema, runTool_get_index_schema]
    have hd : declaredParams "get_index_schema" = ["index_name"] := rfl
    rw [hd] at h
    exact getIndexSchemaHandler_congr b args1 args2 (h "index_name" (by simp))
  by_cases h5 : name = "get_document"
  · subst h5
    rw [runTool_get_document, runTool_get_document]
    have hd : declaredParams "get_document" = ["key", "index_name", "select"] := rfl
    rw [hd] at h
    exact getDocumentHandler_congr cfg b args1 args2
      (h "key" (by simp)) (h "index_name" (by simp)) (h "select" (by simp))
  by_cases h6 : name = "get_document_count"
  · subst h6
    rw [runTool_get_document_count, runTool_get_document_count]
    have hd : declaredParams "get_document_count" = ["index_name"] := rfl
    rw [hd] at h
    exact getDocumentCountHandler_congr cfg b args1 args2 (h "index_name" (by simp))
  simp [runTool, h1, h2, h3, h4, h5, h6]

/-- Closed witness for C8: an undeclared "debug" argument does not change
the result of a `search` call. -/
theorem C8_unknown_params_ignored_witness :
    call_tool cfgEx (bSearch []) "search" [("query", .jstr "q"), ("debug", .jbool true)] =
      call_tool cfgEx (bSearch []) "search" [("query", .jstr "q")] :=
  C8_unknown_params_ignored cfgEx (bSearch []) "search"
    [("query", .jstr "q"), ("debug", .jbool true)] [("query", .jstr "q")]
    (by
      have hd : declaredParams "search" = ["query", "index_name", "top", "select", "filter"] := rfl
      rw [hd]
      intro k hk
      fin_cases hk <;> rfl)

/-- C9: an empty-string `select` behaves exactly as an omitted `select` for
`search`, `vector_search` and `get_document`: same ToolResult and the very
same backend calls (so no field projection reaches the backend). -/
theorem C9_empty_select (cfg : Config) (b : Backend) (name : String) (args1 args2 : Args)
    (hname : name = "search" ∨ name = "vector_search" ∨ name = "get_document")
    (h1 : args1.get "select" = some (.jstr ""))
    (h2 : args2.get "select" = none)
    (h : ∀ k, k ≠ "select" → args1.get k = args2.get k) :
    call_tool cfg b name args1 = call_tool cfg b name args2 := by
  unfold call_tool
  suffices hrt : runTool cfg b name args1 = runTool cfg b name args2 by rw [hrt]
  have e1 : selectFields (JVal.jstr "") = .ok none := rfl
  have e2 : selectFields JVal.jnull = .ok none := rfl
  rcases hname with h' | h' | h'
  · subst h'
    rw [runTool_search, runTool_search]
    unfold searchHandler
    simp only [Dict.getArg, Dict.getArgD, h "query" (by decide), h "index_name" (by decide),
      h "top" (by decide), h "filter" (by decide), h1, h2, Option.getD, e1, e2]
  · subst h'
    rw [runTool_vector_search, runTool_vector_search]
    unfold vectorSearchHandler
    simp only [Dict.getArg, Dict.getArgD, h "query" (by decide), h "index_name" (by decide),
      h "top" (by decide), h "semantic_configuration" (by decide), h1, h2, Option.getD, e1, e2]
  · subst h'
    rw [runTool_get_document, runTool_get_document]
    unfold getDocumentHandler
    simp only [Dict.getArg, h "key" (by decide), h "index_name" (by decide),
      h1, h2, Option.getD, e1, e2]

/-- Closed witness for C9: `search` with `select` set to the empty string
equals the same call with `select` absent. -/
theorem C9_empty_select_witness :
    call_tool cfgEx (bSearch []) "search" [("query", .jstr "q"), ("select", .jstr "")] =
      call_tool cfgEx (bSearch []) "search" [("query", .jstr "q")] :=
  C9_empty_select cfgEx (bSearch []) "search"
    [("query", .jstr "q"), ("select", .jstr "")] [("query", .jstr "q")]
    (Or.inl rfl) rfl rfl
    (by
      intro k hk
      by_cases hq : "query" = k
      · simp [Dict.get, hq]
      · simp [Dict.get, hq, Ne.symm hk])

end AISearchMCP
